import Mathlib

/-!
Shallow embedding of src/deploy.py (xiDIS deployment orchestrator).

The source is a single Python file: it loads a JSON fabric configuration,
validates it against a JSON schema (aggregating every validation error into
one exception), builds a Context, and then either runs a single phase chosen
by the --phase option or iterates over the PHASES dict in insertion order.
Each of the six phase functions is a placeholder whose whole body is one
logging call; none of them reads external state, mutates anything, or can
fail.  The --teardown flag is consulted only after the phase loop, where it
logs a warning that teardown mode is not yet implemented.

Modelling choices:
  - Machine state that phases could in principle mutate is a type parameter
    sigma; every phase function is embedded exactly as the source writes it,
    a single log record and the state passed through.
  - Log records are a structured Event type (the format argument of the
    precheck record is kept structurally rather than rendering the Python
    string interpolation).
  - The PHASES dict of deploy.py maps the six CLI names to the six phase
    functions; argparse restricts --phase to those keys, so the key set is
    embedded as the inductive type Phase, the dict as the total function
    PHASES, and the dict insertion order (the iteration order of
    PHASES.values() in Python 3.7+) as the list PHASES_order.
  - load_config raises one exception carrying every validation message when
    the validator reports errors (deploy.py lines 32-40); this is embedded
    as an Except value.  The schema file config_schema.json is loaded by
    deploy.py but is not present under src/, so the content of the validator
    is modelled from the spec (see iter_errors below).
-/

namespace Deploy

/-- RAID group entry of the fabric description: a stable identifier and the
member list referencing storage-node identifiers. -/
structure RaidGroup where
  id : String
  members : List String
deriving DecidableEq

/-- Modelled from the spec: the shape of the validated fabric configuration
document (spec section 3: hosts, storageNodes, aggregators, raidGroups, each
keyed by a stable identifier).  deploy.py treats the document as an untyped
dict and only the absent schema file constrains it, so the typed shape
follows the spec. -/
structure Config where
  hosts : List String
  storageNodes : List String
  aggregators : List String
  raidGroups : List RaidGroup
deriving DecidableEq

/-- Member identifiers of RAID groups that do not resolve to an existing
storage-node identifier of the configuration. -/
def dangling_members (c : Config) : List String :=
  c.raidGroups.flatMap (fun g => g.members.filter (fun m => !(c.storageNodes.contains m)))

/-- Modelled from the spec: config_schema.json is loaded by deploy.py
(line 27) but is not under src/, so the validation errors produced by
jsonschema iter_errors are modelled from the spec, which requires pre-run
validation to reject every dangling reference (a RAID group member that does
not resolve to an existing entity id) rather than silently drop it (spec
sections 3 and 7).  Structural validity is enforced here by the typed Config,
so the modelled error list is one message per unresolved member reference. -/
def iter_errors (c : Config) : List String :=
  (dangling_members c).map
    (fun m => "raidGroups: member does not resolve to an existing entity id: " ++ m)

/-- Embeds load_config (deploy.py lines 32-40): collect every validation
error; if any exist, raise a single exception listing all of them, otherwise
return the document. -/
def load_config (data : Config) : Except (List String) Config :=
  let errors := iter_errors data
  if errors.isEmpty then Except.ok data else Except.error errors

/-- One log record, as emitted by the logging calls of deploy.py.  The
precheck record keeps the interpolated argument structurally: none stands for
the literal all that the source substitutes for a falsy limit. -/
inductive Event where
  | precheck_info (hosts : Option (List String))
  | info (msg : String)
  | warning (msg : String)
deriving DecidableEq

/-- Embeds the Context dataclass (deploy.py lines 81-85). -/
structure Context where
  config : Config
  limit : Option (List String)
  dry_run : Bool
deriving DecidableEq

/-- The expression ctx.limit or all in phase_precheck: a falsy limit (absent
or empty list) renders as the literal all, modelled as none. -/
def limitOrAll : Option (List String) → Option (List String)
  | none => none
  | some l => if l = [] then none else some l

/-- Embeds phase_precheck (deploy.py lines 88-90): one info record naming
the limited hosts, no other effect. -/
def phase_precheck {σ : Type} (ctx : Context) (s : σ) : σ × List Event :=
  (s, [Event.precheck_info (limitOrAll ctx.limit)])

/-- Embeds phase_storage (deploy.py lines 93-95): one info record, no other
effect. -/
def phase_storage {σ : Type} (_ctx : Context) (s : σ) : σ × List Event :=
  (s, [Event.info "storage_export phase"])

/-- Embeds phase_agg (deploy.py lines 98-100). -/
def phase_agg {σ : Type} (_ctx : Context) (s : σ) : σ × List Event :=
  (s, [Event.info "aggregator_connect phase"])

/-- Embeds phase_raid (deploy.py lines 103-105). -/
def phase_raid {σ : Type} (_ctx : Context) (s : σ) : σ × List Event :=
  (s, [Event.info "opus_raid phase"])

/-- Embeds phase_reexport (deploy.py lines 108-110). -/
def phase_reexport {σ : Type} (_ctx : Context) (s : σ) : σ × List Event :=
  (s, [Event.info "reexport phase"])

/-- Embeds phase_verify (deploy.py lines 113-115). -/
def phase_verify {σ : Type} (_ctx : Context) (s : σ) : σ × List Event :=
  (s, [Event.info "verify phase"])

/-- The key set of the PHASES dict (deploy.py lines 118-125), which is also
the set of values argparse accepts for --phase. -/
inductive Phase where
  | precheck
  | storage
  | agg
  | raid
  | reexport
  | verify
deriving DecidableEq

/-- Embeds the PHASES dict as a total function on its key set. -/
def PHASES {σ : Type} : Phase → Context → σ → σ × List Event
  | Phase.precheck => phase_precheck
  | Phase.storage => phase_storage
  | Phase.agg => phase_agg
  | Phase.raid => phase_raid
  | Phase.reexport => phase_reexport
  | Phase.verify => phase_verify

/-- Insertion order of the PHASES dict, which is the iteration order of
PHASES.values() in the main loop (Python dicts preserve insertion order). -/
def PHASES_order : List Phase :=
  [Phase.precheck, Phase.storage, Phase.agg, Phase.raid, Phase.reexport, Phase.verify]

/-- Embeds the parsed command line (parse_args, deploy.py lines 133-149).
The --config path is not kept: main is given the parsed document directly.
argparse restricts --phase to the PHASES keys, hence the Option Phase type. -/
structure Args where
  limit : Option String
  phase : Option Phase
  dry_run : Bool
  verbose : Bool
  teardown : Bool
deriving DecidableEq

/-- The limit computation of main (deploy.py line 162):
args.limit.split on comma when args.limit is truthy, otherwise None.  The
Python single-character split (which keeps empty pieces) is modelled over the
character list of the string so that it evaluates inside the kernel. -/
def limitOf (args : Args) : Option (List String) :=
  match args.limit with
  | none => none
  | some l => if l = "" then none else some ((l.toList.splitOn ',').map List.asString)

/-- Sequential phase loop: for fn in PHASES.values(): fn(ctx)
(deploy.py lines 167-168), threading state and concatenating log records. -/
def runPhases {σ : Type} (ctx : Context) : List Phase → σ → σ × List Event
  | [], s => (s, [])
  | p :: ps, s =>
    ((runPhases ctx ps (PHASES p ctx s).1).1,
     (PHASES p ctx s).2 ++ (runPhases ctx ps (PHASES p ctx s).1).2)

/-- Embeds main (deploy.py lines 157-172): load and validate the
configuration (any validation error aborts), build the Context, run either
the selected phase or the full PHASES iteration, then log the
teardown-not-implemented warning when --teardown was given.  The result is
the final machine state together with the ordered log trace. -/
def main {σ : Type} (args : Args) (data : Config) (s : σ) :
    Except (List String) (σ × List Event) :=
  match load_config data with
  | Except.error msgs => Except.error msgs
  | Except.ok config =>
    let ctx : Context := ⟨config, limitOf args, args.dry_run⟩
    let r : σ × List Event :=
      match args.phase with
      | some p => PHASES p ctx s
      | none => runPhases ctx PHASES_order s
    if args.teardown then
      Except.ok (r.1, r.2 ++ [Event.warning "teardown mode is not yet implemented"])
    else
      Except.ok r

/-- The log records a given phase emits, as a function of the limit field of
the Context (the only Context field any phase reads). -/
def phaseEventsL : Phase → Option (List String) → List Event
  | Phase.precheck, l => [Event.precheck_info (limitOrAll l)]
  | Phase.storage, _ => [Event.info "storage_export phase"]
  | Phase.agg, _ => [Event.info "aggregator_connect phase"]
  | Phase.raid, _ => [Event.info "opus_raid phase"]
  | Phase.reexport, _ => [Event.info "reexport phase"]
  | Phase.verify, _ => [Event.info "verify phase"]

/-- The full log trace of a run of main that passes validation, as a
function of the parsed arguments: the selected phase (or the PHASES
iteration in insertion order), followed by the teardown warning when
--teardown was given. -/
def run_trace (args : Args) : List Event :=
  (match args.phase with
    | some p => phaseEventsL p (limitOf args)
    | none => PHASES_order.flatMap (fun p => phaseEventsL p (limitOf args)))
  ++ (if args.teardown then [Event.warning "teardown mode is not yet implemented"] else [])

/-- args with the dry_run flag replaced. -/
def setDryRun (a : Args) (b : Bool) : Args :=
  ⟨a.limit, a.phase, b, a.verbose, a.teardown⟩

/-- args with the teardown flag replaced. -/
def setTeardown (a : Args) (b : Bool) : Args :=
  ⟨a.limit, a.phase, a.dry_run, a.verbose, b⟩

/-- Spec-side definition (refinement target), following the words of the
spec only (sections 4.1 and 8): the ordered phase list per direction is the
fixed forward order, and for teardown its reverse with the non-invertible
verify phase omitted and precheck excluded: reexport, opus_raid (raid),
aggregator_connect (agg), storage_export (storage). -/
def spec_ordered_phases (teardown : Bool) : List Phase :=
  if teardown then [Phase.reexport, Phase.raid, Phase.agg, Phase.storage]
  else PHASES_order

theorem PHASES_events {σ : Type} (p : Phase) (ctx : Context) (s : σ) :
    PHASES p ctx s = (s, phaseEventsL p ctx.limit) := by
  cases p <;> rfl

theorem runPhases_events {σ : Type} (ctx : Context) (ps : List Phase) (s : σ) :
    runPhases ctx ps s = (s, ps.flatMap (fun p => phaseEventsL p ctx.limit)) := by
  induction ps generalizing s with
  | nil => rfl
  | cons p ps ih =>
    simp [runPhases, PHASES_events, ih, List.flatMap_cons]

theorem load_config_ok (data : Config) (h : iter_errors data = []) :
    load_config data = Except.ok data := by
  simp [load_config, h]

theorem load_config_err (data : Config) (h : iter_errors data ≠ []) :
    load_config data = Except.error (iter_errors data) := by
  simp [load_config, h]

theorem main_trace {σ : Type} (args : Args) (data : Config) (s : σ)
    (h : iter_errors data = []) :
    main args data s = Except.ok (s, run_trace args) := by
  cases hp : args.phase <;> cases ht : args.teardown <;>
    simp [main, load_config_ok data h, run_trace, hp, ht, runPhases_events, PHASES_events]

theorem main_err {σ : Type} (args : Args) (data : Config) (s : σ)
    (h : iter_errors data ≠ []) :
    main args data s = Except.error (iter_errors data) := by
  simp [main, load_config_err data h]

/-- C6: the forward phase sequence is the fixed total order precheck,
storage_export, aggregator_connect, opus_raid, reexport, verify, and every
forward run without a phase selector invokes the phases in exactly that
order.  In the source the PHASES dict keys are the short CLI names precheck,
storage, agg, raid, reexport, verify; each phase logs itself under the long
name, so the emitted trace below spells the order of the claim. -/
theorem forward_run_phase_order {σ : Type} (limit : Option String) (dry verbose : Bool)
    (data : Config) (s : σ) (h : iter_errors data = []) :
    main ⟨limit, none, dry, verbose, false⟩ data s
      = Except.ok (s,
          [Event.precheck_info (limitOrAll (limitOf ⟨limit, none, dry, verbose, false⟩)),
           Event.info "storage_export phase", Event.info "aggregator_connect phase",
           Event.info "opus_raid phase", Event.info "reexport phase",
           Event.info "verify phase"]) := by
  rw [main_trace _ _ _ h]
  rfl

/-- Witness for C6 at a concrete valid configuration. -/
theorem forward_run_phase_order_witness :
    main (⟨none, none, false, false, false⟩ : Args)
        (⟨["node1"], ["sn1"], ["agg1"], [⟨"rg1", ["sn1"]⟩]⟩ : Config) (0 : Nat)
      = Except.ok (0,
          [Event.precheck_info none,
           Event.info "storage_export phase", Event.info "aggregator_connect phase",
           Event.info "opus_raid phase", Event.info "reexport phase",
           Event.info "verify phase"]) :=
  forward_run_phase_order none false false _ 0 (by decide)

/-- C7: every phase apply is idempotent.  Each of the six phase functions of
the source leaves the machine state untouched (its body is a single logging
call with no failure path), so a first application already mutates nothing,
and a second application on the resulting state returns the identical no-op
success outcome. -/
theorem phase_apply_idempotent {σ : Type} (p : Phase) (ctx : Context) (s : σ) :
    (PHASES p ctx s).1 = s ∧ PHASES p ctx (PHASES p ctx s).1 = PHASES p ctx s := by
  cases p <;> exact ⟨rfl, rfl⟩

/-- C3: the dry_run flag changes nothing about which phases run or what they
log (it is stored in the Context and never read), and a run never mutates
external state: in every successful run the final machine state equals the
initial one, for any notion sigma of external machine state. -/
theorem dry_run_no_effect_and_no_mutation {σ : Type} (args : Args) (data : Config) (s : σ) :
    main (setDryRun args true) data s = main (setDryRun args false) data s
    ∧ main args data s = Except.map (fun r => (s, r.2)) (main args data s) := by
  by_cases h : iter_errors data = []
  · refine ⟨?_, ?_⟩
    · rw [main_trace _ _ _ h, main_trace _ _ _ h]
      rfl
    · rw [main_trace _ _ _ h]
      rfl
  · refine ⟨?_, ?_⟩
    · rw [main_err _ _ _ h, main_err _ _ _ h]
    · rw [main_err _ _ _ h]
      rfl

/-- C10: with the teardown flag set, main runs exactly what the
corresponding forward invocation runs (same phases, same order, same final
state) and only appends the warning that teardown mode is not yet
implemented after the phase loop; no revert action of any kind appears in
the trace. -/
theorem teardown_flag_appends_warning_only {σ : Type} (args : Args) (data : Config) (s : σ) :
    main (setTeardown args true) data s
      = Except.map
          (fun r => (r.1, r.2 ++ [Event.warning "teardown mode is not yet implemented"]))
          (main (setTeardown args false) data s) := by
  by_cases h : iter_errors data = []
  · rw [main_trace _ _ _ h, main_trace _ _ _ h]
    cases hp : args.phase <;> simp [run_trace, setTeardown, limitOf, hp, Except.map]
  · rw [main_err _ _ _ h, main_err _ _ _ h]
    rfl

/-- C1 (evaluation at the failing input): a teardown invocation over a valid
configuration executes the six phases in the forward order and then logs the
not-yet-implemented warning; no revert action in the reverse order
[reexport, opus_raid, aggregator_connect, storage_export] occurs. -/
theorem teardown_flag_runs_forward_phases :
    main (⟨none, none, false, false, true⟩ : Args)
        (⟨["node1"], ["sn1"], [], []⟩ : Config) (0 : Nat)
      = Except.ok (0,
          [Event.precheck_info none,
           Event.info "storage_export phase", Event.info "aggregator_connect phase",
           Event.info "opus_raid phase", Event.info "reexport phase",
           Event.info "verify phase",
           Event.warning "teardown mode is not yet implemented"]) := rfl

/-- C5 (evaluation at the failing input): with limit hostX naming a host
absent from the configuration, the run raises no error at all: the unknown
host is stored in the Context unchecked and all six phases execute. -/
theorem unknown_host_limit_runs_all_phases :
    ((⟨["node1"], ["sn1"], [], []⟩ : Config).hosts.contains "hostX") = false
    ∧ main (⟨some "hostX", none, false, false, false⟩ : Args)
        (⟨["node1"], ["sn1"], [], []⟩ : Config) (0 : Nat)
      = Except.ok (0,
          [Event.precheck_info (some ["hostX"]),
           Event.info "storage_export phase", Event.info "aggregator_connect phase",
           Event.info "opus_raid phase", Event.info "reexport phase",
           Event.info "verify phase"]) :=
  ⟨rfl, rfl⟩

/-- C4 counterexample: a run with the teardown direction and no phase
selector does not execute the phase list in the direction order the spec
defines (reexport, opus_raid, aggregator_connect, storage_export): it
executes the full forward list.  The trace of the concrete run below is the
six forward phase records (plus the warning), and the forward trace differs
from the trace the spec-side teardown order would produce. -/
theorem phase_order_ignores_direction_counterexample :
    main (⟨none, none, false, false, true⟩ : Args)
        (⟨["h1", "h2"], ["sn1"], [], []⟩ : Config) (0 : Nat)
      = Except.ok (0,
          PHASES_order.flatMap (fun p => phaseEventsL p none)
            ++ [Event.warning "teardown mode is not yet implemented"])
    ∧ PHASES_order.flatMap (fun p => phaseEventsL p none)
        ≠ (spec_ordered_phases true).flatMap (fun p => phaseEventsL p none) := by
  refine ⟨rfl, by decide⟩

/-- C4 as amended: if the phase selector is set, exactly that one phase
executes and no other; if it is unset, the full ordered phase list executes
in the forward insertion order regardless of the teardown flag, which only
appends a warning record.  run_trace states exactly this dispatch. -/
theorem phase_selector_dispatch {σ : Type} (args : Args) (data : Config) (s : σ)
    (h : iter_errors data = []) :
    main args data s = Except.ok (s, run_trace args) :=
  main_trace args data s h

/-- Witness for the amended C4: selecting the raid phase runs only the
opus_raid action. -/
theorem phase_selector_dispatch_witness :
    main (⟨none, some Phase.raid, false, false, false⟩ : Args)
        (⟨["node1"], ["sn1"], [], []⟩ : Config) (0 : Nat)
      = Except.ok (0, [Event.info "opus_raid phase"]) :=
  phase_selector_dispatch _ _ 0 (by decide)

/-- C8 counterexample: an invalid scope does not abort the run.  The
concrete configuration has hosts a and b only, the limit names hostX, and
the run completes all six phases successfully instead of aborting before
touching anything. -/
theorem invalid_scope_does_not_abort :
    ((⟨["a", "b"], ["sn1"], [], []⟩ : Config).hosts.contains "hostX") = false
    ∧ main (⟨some "hostX", none, false, false, false⟩ : Args)
        (⟨["a", "b"], ["sn1"], [], []⟩ : Config) (0 : Nat)
      = Except.ok (0,
          [Event.precheck_info (some ["hostX"]),
           Event.info "storage_export phase", Event.info "aggregator_connect phase",
           Event.info "opus_raid phase", Event.info "reexport phase",
           Event.info "verify phase"]) :=
  ⟨rfl, rfl⟩

/-- C8 as amended: a configuration the validator rejects aborts the run
before any phase executes (the result carries no trace and the machine state
is discarded untouched), and the single raised error lists every violation
the validator found, not only the first. -/
theorem config_errors_abort_and_aggregate {σ : Type} (args : Args) (data : Config) (s : σ)
    (h : iter_errors data ≠ []) :
    main args data s = Except.error (iter_errors data) :=
  main_err args data s h

/-- Witness for the amended C8: a configuration with two dangling RAID
member references aborts with both violations listed. -/
theorem config_errors_abort_and_aggregate_witness :
    main (⟨none, none, false, false, false⟩ : Args)
        (⟨["node1"], ["sn1"], [], [⟨"rgX", ["zz1", "zz2"]⟩]⟩ : Config) (0 : Nat)
      = Except.error
          ["raidGroups: member does not resolve to an existing entity id: zz1",
           "raidGroups: member does not resolve to an existing entity id: zz2"] :=
  config_errors_abort_and_aggregate _ _ 0 (by decide)

/-- C9: a configuration containing a reference that does not resolve (a RAID
group member naming no existing storage node) is rejected before any phase
runs: main returns the aggregated validation error, which is nonempty, and
no phase executes (the error result carries no trace).  The validator
content is modelled from the spec because config_schema.json is not under
src/. -/
theorem dangling_reference_rejected {σ : Type} (args : Args) (data : Config) (s : σ)
    (h : dangling_members data ≠ []) :
    main args data s = Except.error (iter_errors data) ∧ iter_errors data ≠ [] := by
  have hne : iter_errors data ≠ [] := by
    simpa [iter_errors] using h
  exact ⟨main_err args data s hne, hne⟩

/-- Witness for C9: a RAID group member sn2 with no such storage node is
rejected with an error naming sn2. -/
theorem dangling_reference_rejected_witness :
    main (⟨none, none, false, false, false⟩ : Args)
        (⟨["node1"], ["sn1"], [], [⟨"rg1", ["sn2"]⟩]⟩ : Config) (0 : Nat)
      = Except.error ["raidGroups: member does not resolve to an existing entity id: sn2"]
    ∧ iter_errors (⟨["node1"], ["sn1"], [], [⟨"rg1", ["sn2"]⟩]⟩ : Config) ≠ [] :=
  dangling_reference_rejected _ _ 0 (by decide)

end Deploy
